import Mathlib

/-!
# Shallow embedding of the warranty-api authentication/authorization core

Embeds `app/auth.py`, `app/routes/auth.py`, `app/routes/warranty.py` and
`app/routes/web.py` of the warranty-api repository. SQLAlchemy stores are
modelled as association lists, JWTs as an inductive of (malformed | signed
payload with secret and algorithm), HTTP exceptions as a status/detail
structure, and handlers as pure functions threading the database state.
-/

deriving instance DecidableEq for Except

namespace WarrantyApi

/-- `HTTPException(status_code, detail)` as raised throughout the app. -/
structure HTTPError where
  statusCode : Nat
  detail : String
deriving DecidableEq, Repr

/-- `app/config.py` `Settings`: the environment-driven configuration fields
the auth core reads. -/
structure Settings where
  secret_key : String
  algorithm : String
  access_token_expire_minutes : Nat
  api_key : String
deriving DecidableEq, Repr

/-- The shipped insecure defaults of `app/config.py`. -/
def defaultSettings : Settings :=
  { secret_key := "your-super-secret-key-change-in-production-minimum-32-chars"
    algorithm := "HS256"
    access_token_expire_minutes := 30
    api_key := "warranty-api-key-change-this" }

/-- `models.WarrantyStatus` enum. -/
inductive WStatus where
  | registered
  | active
  | expired
  | claimed
deriving DecidableEq, Repr

/-- `.value` of a `models.WarrantyStatus` member. -/
def WStatus.value : WStatus → String
  | .registered => "registered"
  | .active => "active"
  | .expired => "expired"
  | .claimed => "claimed"

/-- `models.WarrantyStatus(s)`: constructing the enum from a string; `none`
models the `ValueError` raised on an unknown value. -/
def WStatus.ofString (s : String) : Option WStatus :=
  if s = "registered" then some .registered
  else if s = "active" then some .active
  else if s = "expired" then some .expired
  else if s = "claimed" then some .claimed
  else none

/-- `models.User`: the account record. `is_active` and `is_admin` are
one-character strings compared against the literal "Y" in the code. -/
structure User where
  id : Nat
  email : String
  hashed_password : String
  full_name : Option String
  is_active : String
  is_admin : String
deriving DecidableEq, Repr

/-- `models.Warranty`: the warranty record. Timestamps are `Nat` seconds;
the `Float` cost column is carried as an opaque integer amount. -/
structure Warranty where
  id : Nat
  asset_id : String
  asset_name : String
  category : Option String
  department : Option String
  cost : Option Int
  date_purchased : Option Nat
  warranty_status : WStatus
  warranty_start_date : Nat
  warranty_end_date : Nat
  warranty_notes : Option String
  registered_by : Nat
  registered_by_email : Option String
  registered_at : Nat
deriving DecidableEq, Repr

/-- The database: the `users` and `warranties` tables, with counters
standing in for UUID generation on insert. -/
structure DB where
  users : List User
  warranties : List Warranty
  nextUserId : Nat
  nextWarrantyId : Nat
deriving DecidableEq, Repr

/-- `db.query(User).filter(User.email == email).first()`. -/
def DB.findUserByEmail (db : DB) (email : String) : Option User :=
  db.users.find? (fun u => u.email = email)

/-- `db.query(Warranty).filter(Warranty.asset_id == a).first()`. -/
def DB.findWarrantyByAsset (db : DB) (a : String) : Option Warranty :=
  db.warranties.find? (fun w => w.asset_id = a)

/-- `db.query(Warranty).filter(Warranty.id == i).first()`. -/
def DB.findWarrantyById (db : DB) (i : Nat) : Option Warranty :=
  db.warranties.find? (fun w => w.id = i)

/-- JWT payload as produced by `create_access_token`: the `sub` and
`user_id` claims plus the always-set `exp` claim (seconds). -/
structure Claims where
  sub : Option String
  user_id : Option String
  exp : Nat
deriving DecidableEq, Repr

/-- An inbound bearer-token string, shallowly: either structurally malformed,
or a payload signed with some secret under some declared algorithm. -/
inductive TokenStr where
  | malformed (s : String)
  | signed (payload : Claims) (secret : String) (alg : String)
deriving DecidableEq, Repr

/-- `get_password_hash` (`pwd_context.hash`), modelled as an injective
tagging of the password; only its round-trip with `verify_password`
matters to the embedded code. -/
def get_password_hash (password : String) : String :=
  "bcrypt$" ++ password

/-- `verify_password` (`pwd_context.verify`). -/
def verify_password (plain hashed : String) : Bool :=
  hashed == get_password_hash plain

/-- `create_access_token(data, expires_delta)`: signs the payload with the
configured secret and algorithm, setting `exp = now + delta` (seconds). -/
def create_access_token (s : Settings) (now : Nat) (sub : Option String)
    (uid : Option String) (expiresDeltaSecs : Nat) : TokenStr :=
  .signed { sub := sub, user_id := uid, exp := now + expiresDeltaSecs }
    s.secret_key s.algorithm

/-- The uniform `HTTPException` of `decode_token`'s `except JWTError` arm. -/
def invalidTokenError : HTTPError :=
  { statusCode := 401, detail := "Could not validate credentials" }

/-- `decode_token`: `jose.jwt.decode(token, secret_key, algorithms=[algorithm])`
succeeds iff the token parses, its signature verifies under the configured
secret, its declared algorithm is the configured one, and its `exp` claim is
not in the past; every failure is the one `JWTError` arm. -/
def decode_token (s : Settings) (now : Nat) (t : TokenStr) :
    Except HTTPError Claims :=
  match t with
  | .malformed _ => .error invalidTokenError
  | .signed payload secret alg =>
      if secret = s.secret_key ∧ alg = s.algorithm ∧ ¬ payload.exp < now then
        .ok payload
      else
        .error invalidTokenError

/-- `get_current_user`: the token-only gate of `app/auth.py`. `cred` is the
optional `HTTPBearer` credential (`auto_error=False`). -/
def get_current_user (s : Settings) (now : Nat) (cred : Option TokenStr)
    (db : DB) : Except HTTPError User :=
  match cred with
  | none => .error { statusCode := 401, detail := "Not authenticated" }
  | some t =>
      match decode_token s now t with
      | .error e => .error e
      | .ok payload =>
      match payload.sub with
      | none => .error { statusCode := 401, detail := "Invalid token payload" }
      | some email =>
          match db.findUserByEmail email with
          | none => .error { statusCode := 401, detail := "User not found" }
          | some user =>
              if user.is_active ≠ "Y" then
                .error { statusCode := 403, detail := "User account is inactive" }
              else
                .ok user

/-- `get_current_admin_user`: the admin gate layered on the token gate. -/
def get_current_admin_user (s : Settings) (now : Nat) (cred : Option TokenStr)
    (db : DB) : Except HTTPError User :=
  match get_current_user s now cred db with
  | .error e => .error e
  | .ok current_user =>
      if current_user.is_admin ≠ "Y" then
        .error { statusCode := 403, detail := "Admin privileges required" }
      else
        .ok current_user

/-- `validate_api_key`: the service-secret-only gate. `apiKey` is the
optional `X-API-Key` header (`auto_error=False`). -/
def validate_api_key (s : Settings) (apiKey : Option String) :
    Except HTTPError Bool :=
  match apiKey with
  | none => .error { statusCode := 401, detail := "API key required" }
  | some k =>
      if k ≠ s.api_key then
        .error { statusCode := 401, detail := "Invalid API key" }
      else
        .ok true

/-- `validate_api_key_value`: plain equality check used by web forms. -/
def validate_api_key_value (s : Settings) (apiKey : String) : Bool :=
  apiKey == s.api_key

/-- Truthiness of the optional `X-API-Key` header value in
`if api_key and api_key == settings.api_key` (an empty string is falsy). -/
def apiKeyTruthyAndValid (s : Settings) (apiKey : Option String) : Bool :=
  match apiKey with
  | none => false
  | some k => k ≠ "" && k == s.api_key

/-- `get_api_key_or_user`: the "either" gate. Service secret is tried first;
otherwise a present bearer token is attempted through the token gate with
any `HTTPException` swallowed; otherwise the one generic 401. The result is
`(user_or_none, is_api_key_auth)`. -/
def get_api_key_or_user (s : Settings) (now : Nat) (apiKey : Option String)
    (cred : Option TokenStr) (db : DB) :
    Except HTTPError (Option User × Bool) :=
  if apiKeyTruthyAndValid s apiKey then
    .ok (none, true)
  else
    match cred with
    | some c =>
        match get_current_user s now (some c) db with
        | .ok user => .ok (some user, false)
        | .error _ =>
            .error { statusCode := 401, detail := "Valid API key or JWT token required" }
    | none =>
        .error { statusCode := 401, detail := "Valid API key or JWT token required" }

/-- `schemas.UserCreate`: registration request body. -/
structure UserCreate where
  email : String
  password : String
  full_name : Option String
deriving DecidableEq, Repr

/-- `schemas.UserWithToken`: registration/login response body. -/
structure UserWithToken where
  user : User
  access_token : TokenStr
  token_type : String
deriving DecidableEq, Repr

/-- `POST /auth/register` (`register_user` in `app/routes/auth.py`):
rejects a duplicate email, otherwise inserts one active non-admin account
and issues a token for it. The handler returns its response paired with the
resulting database (unchanged on the error path, where the exception
propagates before any insert). -/
def register_user (s : Settings) (now : Nat) (d : UserCreate) (db : DB) :
    Except HTTPError UserWithToken × DB :=
  match db.findUserByEmail d.email with
  | some _ =>
      (.error { statusCode := 400, detail := "Email already registered" }, db)
  | none =>
      let new_user : User :=
        { id := db.nextUserId
          email := d.email
          hashed_password := get_password_hash d.password
          full_name := d.full_name
          is_active := "Y"
          is_admin := "N" }
      let db1 : DB :=
        { db with users := db.users ++ [new_user], nextUserId := db.nextUserId + 1 }
      let tok := create_access_token s now (some new_user.email)
        (some (toString new_user.id)) (s.access_token_expire_minutes * 60)
      (.ok { user := new_user, access_token := tok, token_type := "bearer" }, db1)

/-- `schemas.WarrantyRegisterRequest`. -/
structure WarrantyRegisterRequest where
  asset_id : String
  asset_name : String
  category : Option String
  department : Option String
  cost : Option Int
  date_purchased : Option Nat
  warranty_notes : Option String
  registered_by_email : Option String
deriving DecidableEq, Repr

/-- `schemas.WarrantyRegistrationResult`. -/
structure WarrantyRegistrationResult where
  success : Bool
  message : String
  warranty_id : Option Nat
  warranty_status : Option String
deriving DecidableEq, Repr

/-- The synthetic account `register_warranty` inserts for API-key
registrations when none exists yet. -/
def systemUser (uid : Nat) : User :=
  { id := uid
    email := "system@warranty-api.local"
    hashed_password := get_password_hash "system-password-not-for-login"
    full_name := some "System User"
    is_active := "Y"
    is_admin := "N" }

/-- `POST /warranties/register` (`register_warranty` in
`app/routes/warranty.py`): gated by `get_api_key_or_user`; a pre-existing
warranty for the asset id short-circuits to a non-success result; otherwise
the record is inserted, owned on the API-key path by the (found or newly
created) system user. -/
def register_warranty (s : Settings) (now : Nat) (data : WarrantyRegisterRequest)
    (apiKey : Option String) (cred : Option TokenStr) (db : DB) :
    Except HTTPError WarrantyRegistrationResult × DB :=
  match get_api_key_or_user s now apiKey cred db with
  | .error e => (.error e, db)
  | .ok (user, is_api_key) =>
      match db.findWarrantyByAsset data.asset_id with
      | some existing =>
          (.ok { success := false
                 message := "Warranty already registered for this asset"
                 warranty_id := some existing.id
                 warranty_status := some existing.warranty_status.value }, db)
      | none =>
          let step : Nat × DB :=
            if is_api_key then
              match db.findUserByEmail "system@warranty-api.local" with
              | some su => (su.id, db)
              | none =>
                  let su := systemUser db.nextUserId
                  (su.id,
                   { db with users := db.users ++ [su], nextUserId := db.nextUserId + 1 })
            else
              match user with
              | some u => (u.id, db)
              -- unreachable: the gate never yields (none, false); in Python
              -- `user.id` on None would escape as an AttributeError
              | none => (0, db)
          let registered_by_id := step.1
          let db1 := step.2
          let warranty : Warranty :=
            { id := db1.nextWarrantyId
              asset_id := data.asset_id
              asset_name := data.asset_name
              category := data.category
              department := data.department
              cost := data.cost
              date_purchased := data.date_purchased
              warranty_status := .registered
              warranty_start_date := now
              warranty_end_date := now + 365 * 86400
              warranty_notes := data.warranty_notes
              registered_by := registered_by_id
              registered_by_email := data.registered_by_email
              registered_at := now }
          let db2 :=
            { db1 with warranties := db1.warranties ++ [warranty],
                       nextWarrantyId := db1.nextWarrantyId + 1 }
          (.ok { success := true
                 message := "Warranty registered successfully"
                 warranty_id := some warranty.id
                 warranty_status := some WStatus.registered.value }, db2)

/-- `PUT /warranties/{id}/status` (`update_warranty_status`): admin-gated
via `get_current_admin_user`; 404 on a missing warranty; `ValueError` from
the enum constructor becomes a 400; otherwise the record's status is
updated in place. -/
def update_warranty_status (s : Settings) (now : Nat) (warranty_id : Nat)
    (new_status : String) (cred : Option TokenStr) (db : DB) :
    Except HTTPError Warranty × DB :=
  match get_current_admin_user s now cred db with
  | .error e => (.error e, db)
  | .ok _current_user =>
      match db.findWarrantyById warranty_id with
      | none => (.error { statusCode := 404, detail := "Warranty not found" }, db)
      | some w =>
          match WStatus.ofString new_status with
          | none =>
              (.error { statusCode := 400, detail := "Invalid status: " ++ new_status }, db)
          | some st =>
              let w1 := { w with warranty_status := st }
              let db1 :=
                { db with warranties := db.warranties.map (fun x =>
                    if x.id = warranty_id then { x with warranty_status := st } else x) }
              (.ok w1, db1)

/-- The module-level `sessions` dict of `app/routes/web.py`: opaque handle
to owner email. Keys are unique (a Python dict). -/
abbrev Sessions := List (String × String)

/-- `get_session_user`: the browser session gate. The cookie may be absent;
an empty cookie value is falsy in `if not session_id`; an unknown handle
yields no user; otherwise the stored owner email is looked up in the
account store. -/
def get_session_user (cookie : Option String) (sessions : Sessions) (db : DB) :
    Option User :=
  match cookie with
  | none => none
  | some sid =>
      if sid = "" then none
      else
        match sessions.lookup sid with
        | none => none
        | some user_email => db.findUserByEmail user_email

/-- `GET /web/logout`: `del sessions[session_id]` guarded by presence (and
truthiness) of the cookie value; returns the resulting session store. -/
def logout (cookie : Option String) (sessions : Sessions) : Sessions :=
  match cookie with
  | none => sessions
  | some sid =>
      if sid ≠ "" ∧ (sessions.lookup sid).isSome then
        sessions.filter (fun p => p.1 ≠ sid)
      else
        sessions

/-- The browser responses the embedded web handlers distinguish. -/
inductive WebResponse where
  | redirectLogin
  | redirectDashboard
  | dashboardPage (user : User)
  | statusPage (message : Option String) (success : Bool)
deriving DecidableEq, Repr

/-- `GET /web/dashboard`: renders for the session user, else redirects to
the login page. -/
def dashboard (cookie : Option String) (sessions : Sessions) (db : DB) :
    WebResponse :=
  match get_session_user cookie sessions db with
  | none => .redirectLogin
  | some user => .dashboardPage user

/-- `POST /web/warranty/{id}/status` (`warranty_status_update`): requires
only a resolved session user; validates the status against the literal
list of enum values (`WStatus.ofString` succeeds exactly on that list) and
updates the record. The code quotes the status value inside the success
message; the quotes are the \x27 escapes below. -/
def warranty_status_update (cookie : Option String) (sessions : Sessions)
    (warranty_id : Nat) (new_status : String) (db : DB) : WebResponse × DB :=
  match get_session_user cookie sessions db with
  | none => (.redirectLogin, db)
  | some _user =>
      match db.findWarrantyById warranty_id with
      | none => (.redirectDashboard, db)
      | some _w =>
          match WStatus.ofString new_status with
          | none =>
              (.statusPage (some ("Invalid status: " ++ new_status)) false, db)
          | some st =>
              let db1 :=
                { db with warranties := db.warranties.map (fun x =>
                    if x.id = warranty_id then { x with warranty_status := st } else x) }
              (.statusPage
                (some ("Status updated to \x27" ++ new_status ++ "\x27 successfully!"))
                true, db1)

/-! ## Concrete fixtures for witnesses and counterexamples -/

/-- The default admin account seeded at startup in `app/main.py`. -/
def exAdmin : User :=
  { id := 1, email := "admin@warranty.local"
    hashed_password := get_password_hash "Admin@123"
    full_name := some "System Administrator", is_active := "Y", is_admin := "N" }

/-- An ordinary active non-admin account. -/
def exUser : User :=
  { id := 2, email := "user@example.com"
    hashed_password := get_password_hash "pw-user-1"
    full_name := none, is_active := "Y", is_admin := "N" }

/-- A deactivated account. -/
def exInactive : User :=
  { id := 3, email := "inactive@example.com"
    hashed_password := get_password_hash "pw-user-3"
    full_name := none, is_active := "N", is_admin := "N" }

/-- A registered warranty record. -/
def exWarranty : Warranty :=
  { id := 10, asset_id := "asset-1", asset_name := "Laptop"
    category := none, department := none, cost := none, date_purchased := none
    warranty_status := .registered, warranty_start_date := 0
    warranty_end_date := 31536000, warranty_notes := none
    registered_by := 2, registered_by_email := none, registered_at := 0 }

/-- A populated database state. -/
def exDB : DB :=
  { users := [exAdmin, exUser, exInactive], warranties := [exWarranty]
    nextUserId := 4, nextWarrantyId := 11 }

/-- An empty database state. -/
def emptyDB : DB :=
  { users := [], warranties := [], nextUserId := 0, nextWarrantyId := 0 }

/-- A session store holding handles for the ordinary and inactive users. -/
def exSessions : Sessions :=
  [("sid-user", "user@example.com"), ("sid-inactive", "inactive@example.com")]

/-- A registration payload for a fresh asset. -/
def exRequest : WarrantyRegisterRequest :=
  { asset_id := "asset-9", asset_name := "Printer", category := none
    department := none, cost := none, date_purchased := none
    warranty_notes := none, registered_by_email := none }

/-- A well-formed unexpired token for `exUser` (taken at `now = 50`). -/
def userToken : TokenStr :=
  .signed { sub := some "user@example.com", user_id := some "2", exp := 100 }
    defaultSettings.secret_key defaultSettings.algorithm

/-- A well-formed unexpired token for `exInactive`. -/
def inactiveToken : TokenStr :=
  .signed { sub := some "inactive@example.com", user_id := some "3", exp := 100 }
    defaultSettings.secret_key defaultSettings.algorithm

/-- A token for `exUser` whose `exp` lies in the past at `now = 50`. -/
def expiredToken : TokenStr :=
  .signed { sub := some "user@example.com", user_id := some "2", exp := 20 }
    defaultSettings.secret_key defaultSettings.algorithm

/-- A validly signed unexpired token with no `sub` claim. -/
def noSubToken : TokenStr :=
  .signed { sub := none, user_id := none, exp := 100 }
    defaultSettings.secret_key defaultSettings.algorithm

/-! ## Shared helper lemmas -/

/-- Filtering out a key removes it from association-list lookup. -/
theorem lookup_filter_self (sessions : Sessions) (sid : String) :
    (sessions.filter (fun p => p.1 ≠ sid)).lookup sid = none := by
  induction sessions with
  | nil => rfl
  | cons hd tl ih =>
      rw [List.filter_cons]
      by_cases h : hd.1 = sid
      · rw [if_neg (by simp [h])]
        exact ih
      · rw [if_pos (by simp [h])]
        have hb : (sid == hd.1) = false := by
          simp [Ne.symm h]
        simp only [List.lookup, hb]
        exact ih

/-- Every failure of `decode_token` carries the one uniform error. -/
theorem decode_token_error_eq (s : Settings) (now : Nat) (t : TokenStr)
    (e : HTTPError) : decode_token s now t = .error e → e = invalidTokenError := by
  intro h
  match t with
  | .malformed str =>
      simp only [decode_token, Except.error.injEq] at h
      exact h.symm
  | .signed payload secret alg =>
      rw [decode_token] at h
      split at h
      · exact absurd h (by simp)
      · injection h with h
        exact h.symm

/-- Success characterization of the token gate: a `UserPrincipal` is produced
exactly from a decodable token whose `sub` names an account with the active
flag set. -/
theorem get_current_user_ok_iff (s : Settings) (now : Nat) (cred : Option TokenStr)
    (db : DB) (u : User) :
    get_current_user s now cred db = .ok u ↔
      ∃ t payload email, cred = some t ∧ decode_token s now t = .ok payload ∧
        payload.sub = some email ∧ db.findUserByEmail email = some u ∧
        u.is_active = "Y" := by
  constructor
  · intro h
    match hc : cred with
    | none => simp [get_current_user] at h
    | some t =>
      rw [get_current_user] at h
      match hd : decode_token s now t with
      | .error e =>
          simp only [hd] at h
          exact absurd h (by simp)
      | .ok payload =>
          simp only [hd] at h
          match hs : payload.sub with
          | none =>
              simp only [hs] at h
              exact absurd h (by simp)
          | some email =>
              simp only [hs] at h
              match hf : db.findUserByEmail email with
              | none =>
                  simp only [hf] at h
                  exact absurd h (by simp)
              | some user =>
                  simp only [hf] at h
                  by_cases ha : user.is_active = "Y"
                  · rw [if_neg (show ¬ user.is_active ≠ "Y" by simp [ha])] at h
                    cases h
                    exact ⟨t, payload, email, rfl, hd, hs, hf, ha⟩
                  · rw [if_pos ha] at h
                    exact absurd h (by simp)
  · rintro ⟨t, payload, email, rfl, hd, hs, hf, ha⟩
    simp only [get_current_user, hd, hs, hf]
    rw [if_neg (show ¬ u.is_active ≠ "Y" by simp [ha])]

/-- Error characterization of the token gate: every failure is one of the
four raise sites (or the uniform decode failure). -/
theorem get_current_user_error_cases (s : Settings) (now : Nat)
    (cred : Option TokenStr) (db : DB) (e : HTTPError) :
    get_current_user s now cred db = .error e →
      e = { statusCode := 401, detail := "Not authenticated" } ∨
      e = invalidTokenError ∨
      e = { statusCode := 401, detail := "Invalid token payload" } ∨
      e = { statusCode := 401, detail := "User not found" } ∨
      e = { statusCode := 403, detail := "User account is inactive" } := by
  intro h
  match hc : cred with
  | none =>
      simp only [get_current_user, Except.error.injEq] at h
      exact Or.inl h.symm
  | some t =>
      rw [get_current_user] at h
      match hd : decode_token s now t with
      | .error e2 =>
          have he : e2 = invalidTokenError := decode_token_error_eq s now t e2 hd
          simp only [hd, Except.error.injEq] at h
          exact Or.inr (Or.inl (h.symm.trans he))
      | .ok payload =>
          simp only [hd] at h
          match hs : payload.sub with
          | none =>
              simp only [hs, Except.error.injEq] at h
              exact Or.inr (Or.inr (Or.inl h.symm))
          | some email =>
              simp only [hs] at h
              match hf : db.findUserByEmail email with
              | none =>
                  simp only [hf, Except.error.injEq] at h
                  exact Or.inr (Or.inr (Or.inr (Or.inl h.symm)))
              | some user =>
                  simp only [hf] at h
                  split at h
                  · injection h with h
                    exact Or.inr (Or.inr (Or.inr (Or.inr h.symm)))
                  · exact absurd h (by simp)

/-! ## Claim theorems -/

/-- C7: token decoding returns the embedded claims when the token is signed
with the configured secret under the configured algorithm and its expiry is
not in the past; a malformed token, a signature (secret) mismatch, an
unexpected declared algorithm, and a past expiry all fail, every failure
being the single uniform `invalidTokenError`, with no partial success. -/
theorem C7_decode_token_uniform (s : Settings) (now : Nat) (t : TokenStr) :
    (∀ payload, t = .signed payload s.secret_key s.algorithm →
      ¬ payload.exp < now → decode_token s now t = .ok payload) ∧
    (∀ payload secret alg, t = .signed payload secret alg →
      secret ≠ s.secret_key ∨ alg ≠ s.algorithm ∨ payload.exp < now →
      decode_token s now t = .error invalidTokenError) ∧
    (∀ str, t = .malformed str → decode_token s now t = .error invalidTokenError) ∧
    (∀ e, decode_token s now t = .error e → e = invalidTokenError) ∧
    (∀ payload, decode_token s now t = .ok payload →
      t = .signed payload s.secret_key s.algorithm ∧ ¬ payload.exp < now) := by
  refine ⟨?_, ?_, ?_, fun e => decode_token_error_eq s now t e, ?_⟩
  · rintro payload rfl hexp
    rw [decode_token, if_pos ⟨rfl, rfl, hexp⟩]
  · rintro payload secret alg rfl hbad
    rw [decode_token, if_neg ?_]
    rintro ⟨h1, h2, h3⟩
    rcases hbad with hb | hb | hb
    · exact hb h1
    · exact hb h2
    · exact h3 hb
  · rintro str rfl
    rfl
  · intro payload h
    match t with
    | .malformed str => simp [decode_token] at h
    | .signed p sec alg =>
        rw [decode_token] at h
        split at h
        case isTrue hc =>
            injection h with h
            subst h
            exact ⟨by rw [hc.1, hc.2.1], hc.2.2⟩
        case isFalse hc => exact absurd h (by simp)

/-- Witness for C7 at concrete tokens: a good token decodes to its claims;
an expired token, a token signed with another secret, and a malformed token
all fail with the uniform error. -/
theorem C7_witness :
    decode_token defaultSettings 50 userToken =
      .ok { sub := some "user@example.com", user_id := some "2", exp := 100 } ∧
    decode_token defaultSettings 50 expiredToken = .error invalidTokenError ∧
    decode_token defaultSettings 50
        (.signed { sub := some "user@example.com", user_id := some "2", exp := 100 }
          "wrong-secret" defaultSettings.algorithm) = .error invalidTokenError ∧
    decode_token defaultSettings 50 (.malformed "not-a-jwt") = .error invalidTokenError := by
  refine ⟨?_, ?_, ?_, ?_⟩
  · exact (C7_decode_token_uniform defaultSettings 50 userToken).1 _ rfl (by decide)
  · exact (C7_decode_token_uniform defaultSettings 50 expiredToken).2.1 _ _ _ rfl
      (Or.inr (Or.inr (by decide)))
  · exact (C7_decode_token_uniform defaultSettings 50 _).2.1 _ _ _ rfl
      (Or.inl (by decide))
  · exact (C7_decode_token_uniform defaultSettings 50 _).2.2.1 _ rfl

/-- C4: a validly signed unexpired token whose subject maps to an existing
account with the active flag unset fails the token gate with the 403
inactive error; no credential, an undecodable token, and an unknown subject
each fail with a 401 error, and the 403 error differs from each of them. -/
theorem C4_inactive_forbidden (s : Settings) (now : Nat) (payload : Claims)
    (email : String) (db : DB) (u : User) :
    (payload.sub = some email → ¬ payload.exp < now →
      db.findUserByEmail email = some u → u.is_active ≠ "Y" →
      get_current_user s now
          (some (.signed payload s.secret_key s.algorithm)) db =
        .error { statusCode := 403, detail := "User account is inactive" }) ∧
    (get_current_user s now none db =
      .error { statusCode := 401, detail := "Not authenticated" }) ∧
    (∀ t e, decode_token s now t = .error e →
      get_current_user s now (some t) db = .error invalidTokenError) ∧
    (payload.sub = some email → ¬ payload.exp < now →
      db.findUserByEmail email = none →
      get_current_user s now
          (some (.signed payload s.secret_key s.algorithm)) db =
        .error { statusCode := 401, detail := "User not found" }) ∧
    (({ statusCode := 403, detail := "User account is inactive" } : HTTPError) ≠
        { statusCode := 401, detail := "Not authenticated" } ∧
      ({ statusCode := 403, detail := "User account is inactive" } : HTTPError) ≠
        invalidTokenError ∧
      ({ statusCode := 403, detail := "User account is inactive" } : HTTPError) ≠
        { statusCode := 401, detail := "User not found" }) := by
  refine ⟨?_, rfl, ?_, ?_, by decide, by decide, by decide⟩
  · intro hs hexp hf hinact
    have hd : decode_token s now (.signed payload s.secret_key s.algorithm) = .ok payload := by
      rw [decode_token, if_pos ⟨rfl, rfl, hexp⟩]
    simp only [get_current_user, hd, hs, hf]
    rw [if_pos hinact]
  · intro t e hd
    have he := decode_token_error_eq s now t e hd
    simp only [get_current_user, hd]
    rw [he]
  · intro hs hexp hf
    have hd : decode_token s now (.signed payload s.secret_key s.algorithm) = .ok payload := by
      rw [decode_token, if_pos ⟨rfl, rfl, hexp⟩]
    simp only [get_current_user, hd, hs, hf]

/-- Witness for C4 at concrete inputs: the inactive account's valid token
fails 403; no credential and an expired token fail 401. -/
theorem C4_witness :
    get_current_user defaultSettings 50 (some inactiveToken) exDB =
      .error { statusCode := 403, detail := "User account is inactive" } ∧
    get_current_user defaultSettings 50 none exDB =
      .error { statusCode := 401, detail := "Not authenticated" } ∧
    get_current_user defaultSettings 50 (some expiredToken) exDB =
      .error invalidTokenError := by
  refine ⟨?_, ?_, ?_⟩
  · exact (C4_inactive_forbidden defaultSettings 50
      { sub := some "inactive@example.com", user_id := some "3", exp := 100 }
      "inactive@example.com" exDB exInactive).1 rfl (by decide) (by decide) (by decide)
  · exact (C4_inactive_forbidden defaultSettings 50
      { sub := some "x", user_id := none, exp := 0 } "x" exDB exInactive).2.1
  · exact (C4_inactive_forbidden defaultSettings 50
      { sub := some "x", user_id := none, exp := 0 } "x" exDB exInactive).2.2.1
      expiredToken invalidTokenError (by decide)

/-- C10: a decodable token with no `sub` claim fails the token gate with the
401 invalid-payload error, uniformly in the database state (hence before any
account lookup); and every successful resolution comes from a token whose
decoded payload carries a subject email. -/
theorem C10_no_sub_claim (s : Settings) (now : Nat) (payload : Claims) :
    (payload.sub = none → ¬ payload.exp < now →
      ∀ db : DB, get_current_user s now
          (some (.signed payload s.secret_key s.algorithm)) db =
        .error { statusCode := 401, detail := "Invalid token payload" }) ∧
    (∀ cred db u, get_current_user s now cred db = .ok u →
      ∃ t p2 email, cred = some t ∧ decode_token s now t = .ok p2 ∧
        p2.sub = some email) := by
  constructor
  · intro hs hexp db
    have hd : decode_token s now (.signed payload s.secret_key s.algorithm) = .ok payload := by
      rw [decode_token, if_pos ⟨rfl, rfl, hexp⟩]
    simp only [get_current_user, hd, hs]
  · intro cred db u h
    obtain ⟨t, p2, email, hc, hd, hs, _, _⟩ :=
      (get_current_user_ok_iff s now cred db u).mp h
    exact ⟨t, p2, email, hc, hd, hs⟩

/-- Witness for C10: the sub-less valid token fails identically on a
populated and on an empty database. -/
theorem C10_witness :
    get_current_user defaultSettings 50 (some noSubToken) exDB =
      .error { statusCode := 401, detail := "Invalid token payload" } ∧
    get_current_user defaultSettings 50 (some noSubToken) emptyDB =
      .error { statusCode := 401, detail := "Invalid token payload" } := by
  exact ⟨(C10_no_sub_claim defaultSettings 50 _).1 rfl (by decide) exDB,
         (C10_no_sub_claim defaultSettings 50 _).1 rfl (by decide) emptyDB⟩

/-- C3: the either gate short-circuits to the service principal whenever the
service-secret header carries the configured (nonempty, hence truthy)
secret, uniformly in whatever bearer token accompanies it; otherwise a
present bearer token is attempted through the token gate with every failure
of that attempt swallowed into the single generic 401; with no successful
path (no credential, or an invalid/expired token and no service secret) the
gate fails, and every failure it ever produces is exactly the one generic
401 error, never a token-specific one. -/
theorem C3_either_gate (s : Settings) (now : Nat) (apiKey : Option String)
    (cred : Option TokenStr) (db : DB) :
    (∀ k, apiKey = some k → k ≠ "" → k = s.api_key →
      ∀ cred2, get_api_key_or_user s now apiKey cred2 db = .ok (none, true)) ∧
    (apiKeyTruthyAndValid s apiKey = false →
      ∀ c u, cred = some c → get_current_user s now (some c) db = .ok u →
        get_api_key_or_user s now apiKey cred db = .ok (some u, false)) ∧
    (apiKeyTruthyAndValid s apiKey = false →
      ∀ c e, cred = some c → get_current_user s now (some c) db = .error e →
        get_api_key_or_user s now apiKey cred db =
          .error { statusCode := 401, detail := "Valid API key or JWT token required" }) ∧
    (apiKeyTruthyAndValid s apiKey = false → cred = none →
      get_api_key_or_user s now apiKey cred db =
        .error { statusCode := 401, detail := "Valid API key or JWT token required" }) ∧
    (∀ e, get_api_key_or_user s now apiKey cred db = .error e →
      e = { statusCode := 401, detail := "Valid API key or JWT token required" }) := by
  refine ⟨?_, ?_, ?_, ?_, ?_⟩
  · rintro k rfl hne rfl cred2
    unfold get_api_key_or_user
    rw [if_pos ?_]
    simp [apiKeyTruthyAndValid, hne]
  · rintro hfalse c u rfl hok
    unfold get_api_key_or_user
    rw [if_neg (by simp [hfalse])]
    simp only [hok]
  · rintro hfalse c e rfl herr
    unfold get_api_key_or_user
    rw [if_neg (by simp [hfalse])]
    simp only [herr]
  · rintro hfalse rfl
    unfold get_api_key_or_user
    rw [if_neg (by simp [hfalse])]
  · intro e h
    unfold get_api_key_or_user at h
    split at h
    · exact absurd h (by simp)
    · match hc : cred with
      | none =>
          injection h with h
          exact h.symm
      | some c =>
          match hu : get_current_user s now (some c) db with
          | .ok u =>
              simp only [hu] at h
              exact absurd h (by simp)
          | .error e2 =>
              simp only [hu, Except.error.injEq] at h
              exact h.symm

/-- Witness for C3: the valid service secret short-circuits past a malformed
and even an absent token; a valid user token resolves when no secret is
given; an expired token with no secret and no credential at all both yield
only the generic 401. -/
theorem C3_witness :
    get_api_key_or_user defaultSettings 50 (some "warranty-api-key-change-this")
        (some (.malformed "junk")) exDB = .ok (none, true) ∧
    get_api_key_or_user defaultSettings 50 (some "warranty-api-key-change-this")
        none exDB = .ok (none, true) ∧
    get_api_key_or_user defaultSettings 50 none (some userToken) exDB =
      .ok (some exUser, false) ∧
    get_api_key_or_user defaultSettings 50 none (some expiredToken) exDB =
      .error { statusCode := 401, detail := "Valid API key or JWT token required" } ∧
    get_api_key_or_user defaultSettings 50 none none exDB =
      .error { statusCode := 401, detail := "Valid API key or JWT token required" } := by
  refine ⟨?_, ?_, ?_, ?_, ?_⟩
  · exact (C3_either_gate defaultSettings 50 (some "warranty-api-key-change-this")
      (some (.malformed "junk")) exDB).1 _ rfl (by decide) (by decide) _
  · exact (C3_either_gate defaultSettings 50 (some "warranty-api-key-change-this")
      none exDB).1 _ rfl (by decide) (by decide) _
  · exact (C3_either_gate defaultSettings 50 none (some userToken) exDB).2.1
      (by decide) userToken exUser rfl (by decide)
  · exact (C3_either_gate defaultSettings 50 none (some expiredToken) exDB).2.2.1
      (by decide) expiredToken invalidTokenError rfl (by decide)
  · exact (C3_either_gate defaultSettings 50 none none exDB).2.2.2.1 (by decide) rfl

/-- C9: destroying a session handle is idempotent (a second destroy changes
nothing), destroying an absent handle is a no-op rather than an error, and
after a destroy the session gate resolves that handle to no user (`none`,
not an error) for every database state. -/
theorem C9_destroy_idempotent (sessions : Sessions) (cookie : Option String)
    (sid : String) :
    logout cookie (logout cookie sessions) = logout cookie sessions ∧
    (sessions.lookup sid = none → logout (some sid) sessions = sessions) ∧
    (∀ db : DB, get_session_user (some sid) (logout (some sid) sessions) db = none) := by
  refine ⟨?_, ?_, ?_⟩
  · match cookie with
    | none => rfl
    | some sid2 =>
        by_cases hg : sid2 ≠ "" ∧ ((sessions.lookup sid2).isSome = true)
        · have h1 : logout (some sid2) sessions =
              sessions.filter (fun p => p.1 ≠ sid2) := by
            rw [logout, if_pos hg]
          rw [h1, logout, if_neg ?_]
          rintro ⟨-, hcon⟩
          rw [lookup_filter_self sessions sid2] at hcon
          exact absurd hcon (by simp)
        · have h1 : logout (some sid2) sessions = sessions := by
            rw [logout, if_neg hg]
          rw [h1]
          exact h1
  · intro hnone
    rw [logout, if_neg (by simp [hnone])]
  · intro db
    by_cases hg : sid ≠ "" ∧ ((sessions.lookup sid).isSome = true)
    · have h1 : logout (some sid) sessions =
          sessions.filter (fun p => p.1 ≠ sid) := by
        rw [logout, if_pos hg]
      rw [h1, get_session_user, if_neg hg.1, lookup_filter_self sessions sid]
    · have h1 : logout (some sid) sessions = sessions := by
        rw [logout, if_neg hg]
      rw [h1]
      rcases not_and_or.mp hg with h | h
      · rw [get_session_user, if_pos (not_not.mp h)]
      · have hn : sessions.lookup sid = none := by
          cases hl : sessions.lookup sid with
          | none => rfl
          | some e => exact absurd (by simp [hl]) h
        by_cases hs : sid = ""
        · rw [get_session_user, if_pos hs]
        · rw [get_session_user, if_neg hs, hn]

/-- Witness for C9 at the concrete store: double destroy equals single
destroy, destroying an absent handle changes nothing, and the destroyed
handle resolves to no user. -/
theorem C9_witness :
    logout (some "sid-user") (logout (some "sid-user") exSessions) =
      logout (some "sid-user") exSessions ∧
    logout (some "absent-handle") exSessions = exSessions ∧
    get_session_user (some "sid-user") (logout (some "sid-user") exSessions) exDB =
      none := by
  exact ⟨(C9_destroy_idempotent exSessions (some "sid-user") "sid-user").1,
         (C9_destroy_idempotent exSessions (some "absent-handle") "absent-handle").2.1
           (by decide),
         (C9_destroy_idempotent exSessions (some "sid-user") "sid-user").2.2 exDB⟩

/-- C2 counterexample: a live session handle whose owner account has the
active flag unset still resolves to a usable principal, and the dashboard
renders for it instead of redirecting to login — the session gate performs
no active-flag check. -/
theorem C2_counterexample :
    exInactive.is_active = "N" ∧
    get_session_user (some "sid-inactive") exSessions exDB = some exInactive ∧
    dashboard (some "sid-inactive") exSessions exDB = .dashboardPage exInactive := by
  refine ⟨rfl, by decide, by decide⟩

/-- C2 (amended): the session gate yields a usable principal exactly when
the cookie carries a (nonempty) handle present in the store whose owner
email names an existing account — the account's active flag is not
consulted; an absent session and an absent account are treated identically
(no principal, dashboard redirects to login) rather than raising an
error. -/
theorem C2_session_gate (cookie : Option String) (sessions : Sessions) (db : DB) :
    (∀ u, get_session_user cookie sessions db = some u ↔
      ∃ sid email, cookie = some sid ∧ sid ≠ "" ∧
        sessions.lookup sid = some email ∧ db.findUserByEmail email = some u) ∧
    (dashboard cookie sessions db = .redirectLogin ↔
      get_session_user cookie sessions db = none) ∧
    (∀ u, get_session_user cookie sessions db = some u →
      dashboard cookie sessions db = .dashboardPage u) := by
  refine ⟨?_, ?_, ?_⟩
  · intro u
    constructor
    · intro h
      match hc : cookie with
      | none => simp [get_session_user] at h
      | some sid =>
          rw [get_session_user] at h
          by_cases hs : sid = ""
          · rw [if_pos hs] at h
            exact absurd h (by simp)
          · rw [if_neg hs] at h
            match hl : sessions.lookup sid with
            | none =>
                simp only [hl] at h
                exact absurd h (by simp)
            | some email =>
                simp only [hl] at h
                exact ⟨sid, email, rfl, hs, hl, h⟩
    · rintro ⟨sid, email, rfl, hs, hl, hf⟩
      rw [get_session_user, if_neg hs]
      simp only [hl]
      exact hf
  · cases hg : get_session_user cookie sessions db with
    | none => simp [dashboard, hg]
    | some u => simp [dashboard, hg]
  · intro u h
    simp [dashboard, h]

/-- Witness for C2 (amended): a live handle of an existing account resolves;
an absent cookie redirects to login. -/
theorem C2_witness :
    get_session_user (some "sid-user") exSessions exDB = some exUser ∧
    dashboard none exSessions exDB = .redirectLogin := by
  constructor
  · exact ((C2_session_gate (some "sid-user") exSessions exDB).1 exUser).mpr
      ⟨"sid-user", "user@example.com", rfl, by decide, by decide, by decide⟩
  · exact (C2_session_gate none exSessions exDB).2.1.mpr (by decide)

/-- C1 counterexample: on the browser status-update route a non-admin
session user succeeds in changing a warranty's status — the route checks
only that the session resolves to some user, so the admin requirement does
not hold across every status-changing operation. -/
theorem C1_counterexample :
    exUser.is_admin = "N" ∧
    get_session_user (some "sid-user") exSessions exDB = some exUser ∧
    warranty_status_update (some "sid-user") exSessions 10 "claimed" exDB =
      (.statusPage (some "Status updated to \x27claimed\x27 successfully!") true,
       { exDB with warranties := [{ exWarranty with warranty_status := .claimed }] }) := by
  refine ⟨rfl, by decide, by decide⟩

/-- C1 (amended): on the API status-update route the admin gate admits only
active admin user principals — a resolved non-admin user fails the 403
admin error with the store unchanged, and a caller presenting no bearer
token (such as a service caller, whose X-API-Key header the route never
consults) fails the 401; the browser status-update route, by contrast,
requires only that the session resolve to some user, and then any valid
status value is applied without an admin check. -/
theorem C1_admin_status_update (s : Settings) (now : Nat)
    (cred : Option TokenStr) (db : DB) :
    (∀ u, get_current_admin_user s now cred db = .ok u →
      u.is_admin = "Y" ∧ u.is_active = "Y") ∧
    (∀ u wid ns, get_current_user s now cred db = .ok u → u.is_admin ≠ "Y" →
      update_warranty_status s now wid ns cred db =
        (.error { statusCode := 403, detail := "Admin privileges required" }, db)) ∧
    (∀ wid ns, update_warranty_status s now wid ns none db =
      (.error { statusCode := 401, detail := "Not authenticated" }, db)) ∧
    (∀ cookie sessions wid ns w st u,
      get_session_user cookie sessions db = some u →
      db.findWarrantyById wid = some w →
      WStatus.ofString ns = some st →
      warranty_status_update cookie sessions wid ns db =
        (.statusPage (some ("Status updated to \x27" ++ ns ++ "\x27 successfully!")) true,
         { db with warranties := db.warranties.map (fun x =>
             if x.id = wid then { x with warranty_status := st } else x) })) := by
  refine ⟨?_, ?_, ?_, ?_⟩
  · intro u h
    rw [get_current_admin_user] at h
    match hg : get_current_user s now cred db with
    | .error e =>
        simp only [hg] at h
        exact absurd h (by simp)
    | .ok v =>
        simp only [hg] at h
        split at h
        · exact absurd h (by simp)
        case isFalse hadm =>
            injection h with h
            obtain ⟨-, -, -, -, -, -, -, hact⟩ :=
              (get_current_user_ok_iff s now cred db v).mp hg
            subst h
            exact ⟨not_not.mp (by simpa using hadm), hact⟩
  · intro u wid ns hu hnadmin
    have hadmin : get_current_admin_user s now cred db =
        .error { statusCode := 403, detail := "Admin privileges required" } := by
      rw [get_current_admin_user]
      simp only [hu]
      rw [if_pos hnadmin]
    rw [update_warranty_status]
    simp only [hadmin]
  · intro wid ns
    have hadmin : get_current_admin_user s now none db =
        .error { statusCode := 401, detail := "Not authenticated" } := rfl
    rw [update_warranty_status]
    simp only [hadmin]
  · intro cookie sessions wid ns w st u hsess hfind hofs
    rw [warranty_status_update]
    simp only [hsess, hfind, hofs]

/-- Witness for C1 (amended): the non-admin token's API update fails 403
with the store unchanged; with no bearer token it fails 401; the inactive
(non-admin) session user's browser update succeeds. -/
theorem C1_witness :
    update_warranty_status defaultSettings 50 10 "claimed" (some userToken) exDB =
      (.error { statusCode := 403, detail := "Admin privileges required" }, exDB) ∧
    update_warranty_status defaultSettings 50 10 "claimed" none exDB =
      (.error { statusCode := 401, detail := "Not authenticated" }, exDB) ∧
    warranty_status_update (some "sid-inactive") exSessions 10 "active" exDB =
      (.statusPage (some "Status updated to \x27active\x27 successfully!") true,
       { exDB with warranties := [{ exWarranty with warranty_status := .active }] }) := by
  refine ⟨?_, ?_, ?_⟩
  · exact (C1_admin_status_update defaultSettings 50 (some userToken) exDB).2.1
      exUser 10 "claimed" (by decide) (by decide)
  · exact (C1_admin_status_update defaultSettings 50 none exDB).2.2.1 10 "claimed"
  · have h := (C1_admin_status_update defaultSettings 50 none exDB).2.2.2
      (some "sid-inactive") exSessions 10 "active" exWarranty .active exInactive
      (by decide) (by decide) (by decide)
    exact h.trans (by decide)

/-- C8: registering a duplicate email fails with the duplicate-unique-key
(Conflict) failure — raised in the code as the 400 "Email already
registered" exception — leaving the account store unchanged and issuing no
token; a free email creates exactly one active non-admin account and
returns it together with a freshly issued access token. -/
theorem C8_register_conflict (s : Settings) (now : Nat) (d : UserCreate)
    (db : DB) :
    (∀ u, db.findUserByEmail d.email = some u →
      register_user s now d db =
        (.error { statusCode := 400, detail := "Email already registered" }, db)) ∧
    (db.findUserByEmail d.email = none →
      ∃ nu, (register_user s now d db).2.users = db.users ++ [nu] ∧
        nu.email = d.email ∧ nu.is_active = "Y" ∧ nu.is_admin = "N" ∧
        (register_user s now d db).1 =
          .ok { user := nu
                access_token := create_access_token s now (some d.email)
                  (some (toString nu.id)) (s.access_token_expire_minutes * 60)
                token_type := "bearer" }) := by
  constructor
  · intro u hu
    simp only [register_user, hu]
  · intro hnone
    simp only [register_user, hnone]
    exact ⟨_, rfl, rfl, rfl, rfl, rfl⟩

/-- Witness for C8: registering the taken email fails with the duplicate
error and the store is unchanged; a fresh email adds one account. -/
theorem C8_witness :
    register_user defaultSettings 0
        { email := "user@example.com", password := "whatever-pw", full_name := none }
        exDB =
      (.error { statusCode := 400, detail := "Email already registered" }, exDB) ∧
    (register_user defaultSettings 0
        { email := "new@example.com", password := "fresh-pw-1", full_name := none }
        exDB).2.users.length = exDB.users.length + 1 := by
  constructor
  · exact (C8_register_conflict defaultSettings 0
      { email := "user@example.com", password := "whatever-pw", full_name := none }
      exDB).1 exUser (by decide)
  · obtain ⟨nu, h1, -, -, -, -⟩ := (C8_register_conflict defaultSettings 0
      { email := "new@example.com", password := "fresh-pw-1", full_name := none }
      exDB).2 (by decide)
    rw [h1]
    simp

/-- C6 counterexample: a warranty registration authenticated only by the
service secret, against a store with no accounts at all, persists a new
account record (the system user) as a side effect — so resolution of the
service principal on the registration operation is not free of stored
account effects. -/
theorem C6_counterexample :
    emptyDB.users = [] ∧
    (register_warranty defaultSettings 0 exRequest
        (some "warranty-api-key-change-this") none emptyDB).2.users =
      [systemUser 0] := by
  exact ⟨rfl, by decide⟩

/-- C6 (amended): warranty registration changes the account store in exactly
one case — service-secret authentication, a fresh asset id, and no existing
system account, where the synthetic system account is appended; on every
other path, in particular whenever the caller authenticates with a user
token rather than the service secret, the account store is unchanged. -/
theorem C6_account_store_frame (s : Settings) (now : Nat)
    (data : WarrantyRegisterRequest) (apiKey : Option String)
    (cred : Option TokenStr) (db : DB) :
    ((register_warranty s now data apiKey cred db).2.users = db.users ∨
      (apiKeyTruthyAndValid s apiKey = true ∧
        db.findWarrantyByAsset data.asset_id = none ∧
        db.findUserByEmail "system@warranty-api.local" = none ∧
        (register_warranty s now data apiKey cred db).2.users =
          db.users ++ [systemUser db.nextUserId])) ∧
    (apiKeyTruthyAndValid s apiKey = false →
      (register_warranty s now data apiKey cred db).2.users = db.users) := by
  have huser : apiKeyTruthyAndValid s apiKey = false →
      (register_warranty s now data apiKey cred db).2.users = db.users := by
    intro hk
    have hif : ¬ (apiKeyTruthyAndValid s apiKey = true) := by simp [hk]
    match hc : cred with
    | none =>
        have hauth : get_api_key_or_user s now apiKey none db =
            .error { statusCode := 401, detail := "Valid API key or JWT token required" } := by
          unfold get_api_key_or_user
          rw [if_neg hif]
        simp only [register_warranty, hauth]
    | some c =>
        match hu : get_current_user s now (some c) db with
        | .error e =>
            have hauth : get_api_key_or_user s now apiKey (some c) db =
                .error { statusCode := 401, detail := "Valid API key or JWT token required" } := by
              unfold get_api_key_or_user
              rw [if_neg hif]
              simp only [hu]
            simp only [register_warranty, hauth]
        | .ok u =>
            have hauth : get_api_key_or_user s now apiKey (some c) db =
                .ok (some u, false) := by
              unfold get_api_key_or_user
              rw [if_neg hif]
              simp only [hu]
            match hw : db.findWarrantyByAsset data.asset_id with
            | some w => simp only [register_warranty, hauth, hw]
            | none => simp [register_warranty, hauth, hw]
  constructor
  · by_cases hk : apiKeyTruthyAndValid s apiKey = true
    · have hauth : get_api_key_or_user s now apiKey cred db = .ok (none, true) := by
        unfold get_api_key_or_user
        rw [if_pos hk]
      match hw : db.findWarrantyByAsset data.asset_id with
      | some w =>
          left
          simp only [register_warranty, hauth, hw]
      | none =>
          match hsys : db.findUserByEmail "system@warranty-api.local" with
          | some su =>
              left
              simp [register_warranty, hauth, hw, hsys]
          | none =>
              right
              refine ⟨hk, rfl, rfl, ?_⟩
              simp [register_warranty, hauth, hw, hsys]
    · exact Or.inl (huser (by simpa using hk))
  · exact huser

/-- Witness for C6 (amended): a user-token registration of a fresh asset
leaves the account store untouched. -/
theorem C6_witness :
    (register_warranty defaultSettings 0 exRequest none (some userToken) exDB).2.users =
      exDB.users := by
  exact (C6_account_store_frame defaultSettings 0 exRequest none
    (some userToken) exDB).2 (by decide)

/-- C5: under any successfully resolved caller, registering an asset id
that already has a warranty returns the non-success result carrying the
existing record's id and status while the whole database is unchanged (no
duplicate, nothing overwritten); registering a fresh asset id returns
success with status "registered" and appends exactly one warranty record
for that asset; and when authentication fails nothing is registered. -/
theorem C5_registration_by_asset_id (s : Settings) (now : Nat)
    (data : WarrantyRegisterRequest) (apiKey : Option String)
    (cred : Option TokenStr) (db : DB) :
    (∀ auth w, get_api_key_or_user s now apiKey cred db = .ok auth →
      db.findWarrantyByAsset data.asset_id = some w →
      register_warranty s now data apiKey cred db =
        (.ok { success := false
               message := "Warranty already registered for this asset"
               warranty_id := some w.id
               warranty_status := some w.warranty_status.value }, db)) ∧
    (∀ auth, get_api_key_or_user s now apiKey cred db = .ok auth →
      db.findWarrantyByAsset data.asset_id = none →
      ∃ w, (register_warranty s now data apiKey cred db).2.warranties =
          db.warranties ++ [w] ∧
        w.asset_id = data.asset_id ∧ w.warranty_status = .registered ∧
        (register_warranty s now data apiKey cred db).1 =
          .ok { success := true
                message := "Warranty registered successfully"
                warranty_id := some w.id
                warranty_status := some "registered" }) ∧
    (∀ e, get_api_key_or_user s now apiKey cred db = .error e →
      register_warranty s now data apiKey cred db = (.error e, db)) := by
  refine ⟨?_, ?_, ?_⟩
  · rintro ⟨user, isk⟩ w hauth hw
    simp only [register_warranty, hauth, hw]
  · rintro ⟨user, isk⟩ hauth hw
    match isk with
    | true =>
        match hsys : db.findUserByEmail "system@warranty-api.local" with
        | some su =>
            simp only [register_warranty, hauth, hw, hsys]
            exact ⟨_, rfl, rfl, rfl, rfl⟩
        | none =>
            simp only [register_warranty, hauth, hw, hsys]
            exact ⟨_, rfl, rfl, rfl, rfl⟩
    | false =>
        match user with
        | some u =>
            simp only [register_warranty, hauth, hw]
            exact ⟨_, rfl, rfl, rfl, rfl⟩
        | none =>
            simp only [register_warranty, hauth, hw]
            exact ⟨_, rfl, rfl, rfl, rfl⟩
  · intro e hauth
    simp only [register_warranty, hauth]

/-- Witness for C5: re-registering the existing asset id returns the
non-success result with the existing record's id and status and leaves the
database unchanged; registering a fresh asset id appends one record. -/
theorem C5_witness :
    register_warranty defaultSettings 0
        { exRequest with asset_id := "asset-1" }
        (some "warranty-api-key-change-this") none exDB =
      (.ok { success := false
             message := "Warranty already registered for this asset"
             warranty_id := some 10
             warranty_status := some "registered" }, exDB) ∧
    (register_warranty defaultSettings 0 exRequest none (some userToken)
        exDB).2.warranties.length = exDB.warranties.length + 1 := by
  constructor
  · exact (C5_registration_by_asset_id defaultSettings 0
      { exRequest with asset_id := "asset-1" }
      (some "warranty-api-key-change-this") none exDB).1 (none, true) exWarranty
      (by decide) (by decide)
  · obtain ⟨w, h1, -, -, -⟩ := (C5_registration_by_asset_id defaultSettings 0
      exRequest none (some userToken) exDB).2.1 (some exUser, false)
      (by decide) (by decide)
    rw [h1]
    simp

end WarrantyApi
